import Mathlib

/-!
Shallow embedding of the booking/availability engine of this repository
(`domain/booking/service.go` and the booking repository file), together
with theorems settling the spec claims.

Modelling conventions:
* Instants (`time.Time`) are integers; `t1.Before(t2)` is `t1 < t2`.
* `time.Now()` is passed as an explicit `now : Int` parameter of each
  service call (the Go code reads the clock during the call).
* UUIDs (`types.BinaryUUID`) are `Nat`; the zero UUID is `0`.  The random
  UUID drawn by `uuid.NewRandom()` is modelled by a `nextUUID` counter in
  the store state, consumed only when the incoming record carries the zero
  UUID, exactly as the Go code only draws a UUID in that case.
* The GORM database is a record of lists.  `Resource` rows are modelled by
  their UUID alone: the service only ever uses a resource to test
  existence (`GetResourceByID` vs `gorm.ErrRecordNotFound`), never its
  other fields.
* Fallible Go functions returning `error` become `Except Err _`; the
  typed errors of `errorz.go` that the booking service can raise form the
  `Err` enumeration.  Plain storage failures have no pure counterpart and
  do not arise in the list model.
-/

namespace VibeBooking

/-- Booking model (`domain/models/booking.go`): resource reservation row. -/
structure Booking where
  uuid : Nat
  resourceID : Nat
  userID : Nat
  startTime : Int
  endTime : Int
  status : String
  notes : String
  reference : String
  deriving DecidableEq, Repr

/-- Availability model (`domain/models/content.go`): a per-resource
availability window with an (unused by the repository queries) recurrence
rule. -/
structure Availability where
  uuid : Nat
  resourceID : Nat
  startTime : Int
  endTime : Int
  isRecurring : Bool
  recurRule : String
  deriving DecidableEq, Repr

/-- The durable store: resource rows (by UUID), availability rows, booking
rows, plus the counter standing in for fresh random UUIDs. -/
structure DB where
  resources : List Nat
  availabilities : List Availability
  bookings : List Booking
  nextUUID : Nat
  deriving DecidableEq, Repr

/-- Typed errors of `domain/booking/errorz.go` raised by the service. -/
inductive Err where
  | resourceNotFound
  | bookingNotFound
  | availabilityNotFound
  | resourceNotAvailable
  | invalidTimeRange
  | bookingOverlap
  | invalidBookingStatus
  | pastDateBooking
  deriving DecidableEq, Repr

/-! ## Repository layer (the booking repository file) -/

/-- `GetResourceByID` succeeds iff the resource row exists. -/
def resourceExists (db : DB) (rid : Nat) : Bool :=
  db.resources.contains rid

/-- `Repository.FindOverlappingBookings`: the SQL predicate is
`resource_id = ? AND start_time <= end AND end_time >= start AND
status != 'cancelled'`. -/
def findOverlappingBookings (db : DB) (rid : Nat) (start finish : Int) :
    List Booking :=
  db.bookings.filter (fun b =>
    decide (b.resourceID = rid ∧ b.startTime ≤ finish ∧ start ≤ b.endTime ∧
      b.status ≠ "cancelled"))

/-- `Repository.IsAvailable`: counts availability rows with
`resource_id = ? AND start_time <= start AND end_time >= end` and returns
whether the count is positive, i.e. whether some single window contains
the requested range. -/
def isAvailable (db : DB) (rid : Nat) (start finish : Int) : Bool :=
  db.availabilities.any (fun a =>
    decide (a.resourceID = rid ∧ a.startTime ≤ start ∧ finish ≤ a.endTime))

/-- `Repository.GetBookingByID`: `First` on `uuid = ?`. -/
def getBookingByID (db : DB) (id : Nat) : Option Booking :=
  db.bookings.find? (fun b => b.uuid == id)

/-- `Repository.UpdateBooking` (GORM `Save`): replace the row with the
same UUID. -/
def saveBooking (db : DB) (b : Booking) : DB :=
  { db with bookings := db.bookings.map (fun x => if x.uuid == b.uuid then b else x) }

/-- `Repository.CreateBooking` (GORM `Create`): append the row. -/
def createBookingRow (db : DB) (b : Booking) : DB :=
  { db with bookings := db.bookings ++ [b] }

/-! ## Service layer (`domain/booking/service.go`) -/

/-- `isValidStatus` helper: membership in the hardcoded list of the four
status strings.  No transition relation is consulted. -/
def isValidStatus (status : String) : Bool :=
  ["pending", "confirmed", "cancelled", "completed"].contains status

/-- `Service.CheckResourceAvailability`: reject `end < start` or
`start < now` with `ErrInvalidTimeRange`; require the resource to exist;
report `false` when any overlapping booking exists, otherwise report the
repository coverage test. -/
def checkResourceAvailability (db : DB) (now : Int) (rid : Nat)
    (start finish : Int) : Except Err Bool :=
  if finish < start ∨ start < now then .error .invalidTimeRange
  else if resourceExists db rid = false then .error .resourceNotFound
  else if (findOverlappingBookings db rid start finish).length > 0 then .ok false
  else .ok (isAvailable db rid start finish)

/-- UUID defaulting of `Service.CreateBooking`: a zero incoming UUID gets
a fresh one (modelled by the `nextUUID` counter). -/
def assignUUID (db : DB) (b : Booking) : Booking × DB :=
  if b.uuid = 0 then
    ({ b with uuid := db.nextUUID }, { db with nextUUID := db.nextUUID + 1 })
  else (b, db)

/-- Status defaulting of `Service.CreateBooking`: an empty status becomes
`"confirmed"`. -/
def defaultStatus (b : Booking) : Booking :=
  if b.status = "" then { b with status := "confirmed" } else b

/-- The write half of `Service.CreateBooking`: UUID and status defaulting
followed by the repository insert. -/
def createBookingInsert (db : DB) (b : Booking) : DB :=
  createBookingRow (assignUUID db b).2 (defaultStatus (assignUUID db b).1)

/-- `Service.CreateBooking`, translated clause by clause: `end < start`
gives `ErrInvalidTimeRange`; `start < now` gives `ErrPastDateBooking`;
then `CheckResourceAvailability` is consulted and a `false` verdict gives
`ErrResourceNotAvailable`; otherwise the defaulted row is inserted. -/
def createBooking (db : DB) (now : Int) (b : Booking) : Except Err DB :=
  if b.endTime < b.startTime then .error .invalidTimeRange
  else if b.startTime < now then .error .pastDateBooking
  else
    match checkResourceAvailability db now b.resourceID b.startTime b.endTime with
    | .error e => .error e
    | .ok available =>
      if available then .ok (createBookingInsert db b)
      else .error .resourceNotAvailable

/-- The read half of `Service.CreateBooking`: everything it does up to and
including the availability verdict, with no write.  `createBooking`
factors through this (`createBooking_factors`), which is what makes the
check-then-insert interleaving analysis of the code faithful. -/
def createBookingCheck (db : DB) (now : Int) (b : Booking) : Except Err Unit :=
  if b.endTime < b.startTime then .error .invalidTimeRange
  else if b.startTime < now then .error .pastDateBooking
  else
    match checkResourceAvailability db now b.resourceID b.startTime b.endTime with
    | .error e => .error e
    | .ok available =>
      if available then .ok () else .error .resourceNotAvailable

/-- `Service.UpdateBooking`: load by id, apply the caller's mutation
closure, validate `end < start` and status membership, and when the time
range changed re-run past-date, overlap (excluding this booking's UUID)
and coverage checks; finally persist via `Save`. -/
def updateBooking (db : DB) (now : Int) (id : Nat)
    (updateFn : Booking → Except Err Booking) : Except Err DB :=
  match getBookingByID db id with
  | none => .error .bookingNotFound
  | some original =>
    match updateFn original with
    | .error e => .error e
    | .ok b =>
      if b.endTime < b.startTime then .error .invalidTimeRange
      else if isValidStatus b.status = false then .error .invalidBookingStatus
      else if b.startTime ≠ original.startTime ∨ b.endTime ≠ original.endTime then
        if b.startTime < now then .error .pastDateBooking
        else if (findOverlappingBookings db b.resourceID b.startTime b.endTime).any
            (fun x => x.uuid != b.uuid) then .error .bookingOverlap
        else if isAvailable db b.resourceID b.startTime b.endTime = false then
          .error .resourceNotAvailable
        else .ok (saveBooking db b)
      else .ok (saveBooking db b)

/-- `Service.CancelBooking`: load by id, overwrite status with
`"cancelled"` unconditionally, persist via `Save`. -/
def cancelBooking (db : DB) (id : Nat) : Except Err DB :=
  match getBookingByID db id with
  | none => .error .bookingNotFound
  | some b => .ok (saveBooking db { b with status := "cancelled" })

/-- Availability UUID defaulting of `Service.CreateAvailability`. -/
def assignAvailabilityUUID (db : DB) (a : Availability) : Availability × DB :=
  if a.uuid = 0 then
    ({ a with uuid := db.nextUUID }, { db with nextUUID := db.nextUUID + 1 })
  else (a, db)

/-- `Service.CreateAvailability`: reject `end < start` or `start < now`
with `ErrInvalidTimeRange`; require the resource to exist; stamp the
resource id, default the UUID, insert. -/
def createAvailability (db : DB) (now : Int) (rid : Nat)
    (a : Availability) : Except Err DB :=
  if a.endTime < a.startTime ∨ a.startTime < now then .error .invalidTimeRange
  else if resourceExists db rid = false then .error .resourceNotFound
  else
    .ok { (assignAvailabilityUUID db { a with resourceID := rid }).2 with
      availabilities :=
        (assignAvailabilityUUID db { a with resourceID := rid }).2.availabilities ++
          [(assignAvailabilityUUID db { a with resourceID := rid }).1] }

/-! ## Coverage as the spec words it (for the refinement claim C3) -/

/-- Spec-side helper: `coveredFrom ws rid s n` holds when every integer
instant in `[s, s + n)` lies inside some availability window of resource
`rid`, windows read as half-open `[start, end)`. -/
def coveredFrom (ws : List Availability) (rid : Nat) (s : Int) : Nat → Bool
  | 0 => true
  | n + 1 =>
    (ws.any (fun w => decide (w.resourceID = rid ∧ w.startTime ≤ s ∧ s < w.endTime))) &&
      coveredFrom ws rid (s + 1) n

/-- Spec-side coverage, written to the spec's words for comparison with
the code's `isAvailable`: the union of the windows (equivalently, the
merge of overlapping/adjacent half-open windows) contains `[start, end)`;
an empty window set covers nothing.  Over integer instants, containment
of `[start, end)` in the merged union is exactly pointwise membership of
every instant of the range.  Recurrence expansion is not modelled; the
comparison below uses non-recurring windows only, where the spec treats
the rows as plain intervals. -/
def specIsCovered (ws : List Availability) (rid : Nat)
    (start finish : Int) : Bool :=
  decide (start < finish) && coveredFrom ws rid start (finish - start).toNat

/-! ## Concrete stores and records used by counterexamples and witnesses -/

/-- A non-recurring availability window `[0, 1000]` for resource `1`. -/
def cWindow : Availability := ⟨10, 1, 0, 1000, false, ""⟩

/-- A confirmed booking `[900, 1000]` on resource `1`. -/
def cbBoundary : Booking := ⟨1, 1, 7, 900, 1000, "confirmed", "", ""⟩

/-- Store holding only `cbBoundary`. -/
def cdbBoundary : DB := ⟨[1], [], [cbBoundary], 2⟩

/-- Store with two touching windows `[0,10]` and `[10,20]` on resource 1. -/
def cdbSplit : DB := ⟨[1], [⟨20, 1, 0, 10, false, ""⟩, ⟨21, 1, 10, 20, false, ""⟩], [], 22⟩

/-- A completed booking `[200, 300]` on resource `1`. -/
def cbCompleted : Booking := ⟨2, 1, 7, 200, 300, "completed", "", ""⟩

/-- Store holding only `cbCompleted`. -/
def cdbCompleted : DB := ⟨[1], [], [cbCompleted], 3⟩

/-- Store with resource `1` and the wide window, no bookings. -/
def cdbOpen : DB := ⟨[1], [cWindow], [], 100⟩

/-- A fresh booking request `[200, 300]` on resource `1` by user `7`. -/
def cbReqA : Booking := ⟨0, 1, 7, 200, 300, "", "", ""⟩

/-- A fresh booking request `[200, 300]` on resource `1` by user `8`,
fully overlapping `cbReqA`. -/
def cbReqB : Booking := ⟨0, 1, 8, 200, 300, "", "", ""⟩

/-- The store after `cbReqA` was admitted and inserted into `cdbOpen`:
it received UUID `100` and the defaulted status `"confirmed"`. -/
def cdbAfterA : DB := ⟨[1], [cWindow], [⟨100, 1, 7, 200, 300, "confirmed", "", ""⟩], 101⟩

/-- A zero-length booking request `[200, 200]` on resource `1`. -/
def cbZeroLen : Booking := ⟨0, 1, 7, 200, 200, "", "", ""⟩

/-- The store after the zero-length request was admitted into `cdbOpen`. -/
def cdbAfterZeroLen : DB := ⟨[1], [cWindow], [⟨100, 1, 7, 200, 200, "confirmed", "", ""⟩], 101⟩

/-- A cancelled booking `[200, 300]` stored under UUID `5`. -/
def cbCancelled : Booking := ⟨5, 1, 7, 200, 300, "cancelled", "", ""⟩

/-- Store holding only `cbCancelled`. -/
def cdbCancelled : DB := ⟨[1], [], [cbCancelled], 6⟩

/-- `cdbCancelled` after the stored booking was flipped to `"confirmed"`. -/
def cdbRevived : DB := ⟨[1], [], [⟨5, 1, 7, 200, 300, "confirmed", "", ""⟩], 6⟩

/-- A confirmed booking `[200, 300]` stored under UUID `5`, for the
cancel-idempotence witness. -/
def cbForCancel : Booking := ⟨5, 1, 7, 200, 300, "confirmed", "", ""⟩

/-- Store holding only `cbForCancel`. -/
def cdbForCancel : DB := ⟨[], [], [cbForCancel], 6⟩

/-- `cdbForCancel` after the booking was cancelled. -/
def cdbCancelledOnce : DB := ⟨[], [], [⟨5, 1, 7, 200, 300, "cancelled", "", ""⟩], 6⟩

/-- A pending booking `[200, 300]` stored under UUID `9`, for the
status-validation witness. -/
def cbPending : Booking := ⟨9, 1, 7, 200, 300, "pending", "", ""⟩

/-- Store holding only `cbPending`. -/
def cdbPending : DB := ⟨[1], [], [cbPending], 10⟩

/-- A past-dated availability request `[50, 500]` (end well after start). -/
def cavPast : Availability := ⟨0, 0, 50, 500, false, ""⟩

/-- A past-dated booking request `[50, 60]`. -/
def cbPast : Booking := ⟨0, 1, 7, 50, 60, "", "", ""⟩

/-- `cbPending` after a status-only patch to `"completed"`. -/
def cbPendingDone : Booking := ⟨9, 1, 7, 200, 300, "completed", "", ""⟩

/-! ## Helper lemmas -/

/-- Membership characterization of the repository overlap query. -/
theorem mem_findOverlappingBookings {db : DB} {rid : Nat} {s e : Int}
    {b : Booking} :
    b ∈ findOverlappingBookings db rid s e ↔
      b ∈ db.bookings ∧ b.resourceID = rid ∧ b.startTime ≤ e ∧
        s ≤ b.endTime ∧ b.status ≠ "cancelled" := by
  simp [findOverlappingBookings, List.mem_filter, and_assoc]

/-- Characterization of the repository coverage test: some single window
contains the requested range. -/
theorem isAvailable_iff {db : DB} {rid : Nat} {s e : Int} :
    isAvailable db rid s e = true ↔
      ∃ a ∈ db.availabilities,
        a.resourceID = rid ∧ a.startTime ≤ s ∧ e ≤ a.endTime := by
  simp [isAvailable, List.any_eq_true]

/-- With both time validations passing, `CheckResourceAvailability` never
produces `ErrInvalidTimeRange`. -/
theorem checkResourceAvailability_ne_invalid {db : DB} {now : Int}
    {rid : Nat} {s e : Int} (h1 : ¬ e < s) (h2 : ¬ s < now) :
    checkResourceAvailability db now rid s e ≠ .error .invalidTimeRange := by
  intro hcon
  unfold checkResourceAvailability at hcon
  rw [if_neg (not_or.mpr ⟨h1, h2⟩)] at hcon
  split at hcon
  · exact Err.noConfusion (Except.error.inj hcon)
  · split at hcon
    · exact Except.noConfusion hcon
    · exact Except.noConfusion hcon

/-- `Service.CreateBooking` factors into its read half followed by its
write half: the service performs the admission check and the insert as
two separate repository operations with no transaction around them, so
analysing interleavings of `createBookingCheck` and
`createBookingInsert` is a faithful account of concurrent calls. -/
theorem createBooking_factors (db : DB) (now : Int) (b : Booking) :
    createBooking db now b =
      match createBookingCheck db now b with
      | .error e => .error e
      | .ok _ => .ok (createBookingInsert db b) := by
  unfold createBooking createBookingCheck
  by_cases h1 : b.endTime < b.startTime
  · simp [h1]
  · by_cases h2 : b.startTime < now
    · simp [h1, h2]
    · simp only [if_neg h1, if_neg h2]
      cases hc : checkResourceAvailability db now b.resourceID b.startTime
          b.endTime with
      | error e => simp [hc]
      | ok av => cases av <;> simp [hc]

/-- A successful `CreateBooking` run means both time validations passed,
the availability check answered `true`, and the result store is exactly
the insert of the defaulted row. -/
theorem createBooking_ok_elim {db st : DB} {now : Int} {b : Booking}
    (h : createBooking db now b = .ok st) :
    st = createBookingInsert db b ∧
      checkResourceAvailability db now b.resourceID b.startTime b.endTime =
        .ok true := by
  unfold createBooking at h
  by_cases h1 : b.endTime < b.startTime
  · rw [if_pos h1] at h; exact Except.noConfusion h
  · rw [if_neg h1] at h
    by_cases h2 : b.startTime < now
    · rw [if_pos h2] at h; exact Except.noConfusion h
    · rw [if_neg h2] at h
      cases hc : checkResourceAvailability db now b.resourceID b.startTime
          b.endTime with
      | error e => rw [hc] at h; exact Except.noConfusion h
      | ok av =>
        rw [hc] at h
        cases av
        · exact Except.noConfusion h
        · exact ⟨(Except.ok.inj h).symm, rfl⟩

/-- The insert half does not touch the resource table. -/
theorem createBookingInsert_resources (db : DB) (b : Booking) :
    (createBookingInsert db b).resources = db.resources := by
  unfold createBookingInsert createBookingRow assignUUID defaultStatus
  split_ifs <;> rfl

/-- The insert half appends exactly the defaulted row. -/
theorem createBookingInsert_bookings (db : DB) (b : Booking) :
    (createBookingInsert db b).bookings =
      db.bookings ++ [defaultStatus (assignUUID db b).1] := by
  unfold createBookingInsert createBookingRow assignUUID
  split_ifs <;> rfl

/-- UUID and status defaulting leave resource and time fields alone. -/
theorem stored_fields (db : DB) (b : Booking) :
    (defaultStatus (assignUUID db b).1).resourceID = b.resourceID ∧
    (defaultStatus (assignUUID db b).1).startTime = b.startTime ∧
    (defaultStatus (assignUUID db b).1).endTime = b.endTime := by
  unfold assignUUID defaultStatus
  split_ifs <;> exact ⟨rfl, rfl, rfl⟩

/-- The stored row of a request whose status was not `"cancelled"` is
itself not cancelled (an empty status defaults to `"confirmed"`). -/
theorem stored_status_ne (db : DB) (b : Booking)
    (h : b.status ≠ "cancelled") :
    (defaultStatus (assignUUID db b).1).status ≠ "cancelled" := by
  unfold assignUUID defaultStatus
  split_ifs <;>
    first
      | exact (by decide : ("confirmed" : String) ≠ "cancelled")
      | exact h

/-- A `true` verdict from `CheckResourceAvailability` needs the resource
row to exist. -/
theorem check_ok_true_resourceExists {db : DB} {now : Int} {rid : Nat}
    {s e : Int}
    (h : checkResourceAvailability db now rid s e = .ok true) :
    resourceExists db rid = true := by
  unfold checkResourceAvailability at h
  by_cases h1 : (e < s ∨ s < now)
  · rw [if_pos h1] at h
    exact Except.noConfusion h
  · rw [if_neg h1] at h
    cases hres : resourceExists db rid with
    | true => rfl
    | false =>
      rw [if_pos hres] at h
      exact Except.noConfusion h

/-- When both time validations pass, the resource exists, and some
matching booking row is present, `CheckResourceAvailability` reports the
resource busy. -/
theorem check_overlap_busy {db : DB} {now : Int} {rid : Nat} {s e : Int}
    (h1 : ¬ e < s) (h2 : ¬ s < now) (h3 : resourceExists db rid = true)
    (h4 : 0 < (findOverlappingBookings db rid s e).length) :
    checkResourceAvailability db now rid s e = .ok false := by
  unfold checkResourceAvailability
  rw [if_neg (not_or.mpr ⟨h1, h2⟩), if_neg (by simp [h3]), if_pos h4]

/-! ## Claim C1 -/

/-- C1 counterexample: starting from the same store snapshot, the
admission checks of two fully overlapping requests BOTH succeed, and
executing both inserts afterwards (the interleaving check-A, check-B,
insert-A, insert-B of two concurrent `CreateBooking` calls — the service
runs the check and the insert as two separate repository operations, see
`createBooking_factors`) leaves two active fully overlapping bookings on
the resource, refuting the claim that the re-check and the insert form
one atomic unit under which two concurrent admissions never both
insert. -/
theorem C1_interleaved_double_insert_counterexample :
    createBookingCheck cdbOpen 100 cbReqA = .ok () ∧
    createBookingCheck cdbOpen 100 cbReqB = .ok () ∧
    (findOverlappingBookings
      (createBookingInsert (createBookingInsert cdbOpen cbReqA) cbReqB)
      1 200 300).length = 2 := ⟨rfl, rfl, rfl⟩

/-- C1 amended: only under SERIALIZED execution does the exactly-one-
success property hold: if one `CreateBooking` call completes first
(yielding store `st1`), any second call for the same resource whose
range touches the admitted one (closed-interval overlap) and passes its
own time validations fails with `ErrResourceNotAvailable`.  Under
concurrent interleavings the property fails, because the check and the
insert are separate non-transactional repository calls (see the
counterexample). -/
theorem C1_serialized_second_admission_rejected (db st1 : DB) (now : Int)
    (b1 b2 : Booking)
    (h1 : createBooking db now b1 = .ok st1)
    (hs : b1.status ≠ "cancelled")
    (hr : b2.resourceID = b1.resourceID)
    (hv1 : ¬ b2.endTime < b2.startTime)
    (hv2 : ¬ b2.startTime < now)
    (ho1 : b1.startTime ≤ b2.endTime)
    (ho2 : b2.startTime ≤ b1.endTime) :
    createBooking st1 now b2 = .error .resourceNotAvailable := by
  obtain ⟨hst, hchk⟩ := createBooking_ok_elim h1
  subst hst
  have hres : resourceExists db b1.resourceID = true :=
    check_ok_true_resourceExists hchk
  have hres2 : resourceExists (createBookingInsert db b1) b2.resourceID =
      true := by
    unfold resourceExists at hres ⊢
    rw [createBookingInsert_resources, hr]
    exact hres
  have hmem : defaultStatus (assignUUID db b1).1 ∈
      (createBookingInsert db b1).bookings := by
    rw [createBookingInsert_bookings]
    exact List.mem_append_right _ (List.mem_singleton_self _)
  obtain ⟨hf1, hf2, hf3⟩ := stored_fields db b1
  have hlen : 0 < (findOverlappingBookings (createBookingInsert db b1)
      b2.resourceID b2.startTime b2.endTime).length :=
    List.length_pos_of_mem (mem_findOverlappingBookings.mpr
      ⟨hmem, by rw [hf1, hr], by rw [hf2]; exact ho1,
        by rw [hf3]; exact ho2, stored_status_ne db b1 hs⟩)
  unfold createBooking
  rw [if_neg hv1, if_neg hv2, check_overlap_busy hv1 hv2 hres2 hlen]
  rfl

/-- C1 witness: the theorem applied after the concrete first request was
admitted into the open store. -/
theorem C1_serialized_second_admission_rejected_witness :
    createBooking cdbAfterA 100 cbReqB = .error .resourceNotAvailable :=
  C1_serialized_second_admission_rejected cdbOpen cdbAfterA 100 cbReqA
    cbReqB rfl (by decide) rfl (by decide) (by decide) (by decide) (by decide)

/-! ## Claim C2 -/

/-- C2 counterexample: the stored booking `[900, 1000]` IS returned by
`FindOverlappingBookings` for the requested range `[1000, 1100]` starting
exactly at the booking's end instant, refuting the half-open overlap
claim (`s1 < e2 AND s2 < e1`) at this concrete input: the SQL predicate
uses `<=`/`>=`, so a booking ending at `T` collides with a request
starting at `T`. -/
theorem C2_boundary_counterexample :
    findOverlappingBookings cdbBoundary 1 1000 1100 = [cbBoundary] := rfl

/-- C2 amended: `FindOverlappingBookings` uses the CLOSED interval test:
a stored booking is returned iff it is on the requested resource,
`b.start ≤ requestedEnd` and `requestedStart ≤ b.end` (both inclusive),
and its status is not `"cancelled"`; consequently a booking ending at
instant `T` is returned as overlapping a request starting at `T`. -/
theorem C2_overlap_closed_interval (db : DB) (rid : Nat) (s e : Int)
    (b : Booking) :
    b ∈ findOverlappingBookings db rid s e ↔
      b ∈ db.bookings ∧ b.resourceID = rid ∧ b.startTime ≤ e ∧
        s ≤ b.endTime ∧ b.status ≠ "cancelled" :=
  mem_findOverlappingBookings

/-! ## Claim C3 -/

/-- C3 counterexample: resource 1 has touching windows `[0,10]` and
`[10,20]`; the request `[5,15]` is contained in their union (the
spec-side merged coverage reports `true`) yet the code's `IsAvailable`
reports `false`, because the SQL query demands one single row containing
the whole range and never merges windows. -/
theorem C3_adjacent_windows_counterexample :
    isAvailable cdbSplit 1 5 15 = false ∧
      specIsCovered cdbSplit.availabilities 1 5 15 = true := ⟨rfl, rfl⟩

/-- C3 amended: `Repository.IsAvailable` returns `true` iff some SINGLE
availability row of the resource satisfies `row.start ≤ start` and
`end ≤ row.end`; windows are never merged and recurrence is never
expanded, so a range jointly covered by two adjacent windows is reported
unavailable, while an empty window set is never covered (no row can
exist). -/
theorem C3_single_window_containment (db : DB) (rid : Nat) (s e : Int) :
    isAvailable db rid s e = true ↔
      ∃ a ∈ db.availabilities,
        a.resourceID = rid ∧ a.startTime ≤ s ∧ e ≤ a.endTime :=
  isAvailable_iff

/-! ## Claim C5 -/

/-- C5 counterexample: a booking with status `"completed"` overlapping
the requested range IS returned by `FindOverlappingBookings`, refuting
the claim that only `pending`/`confirmed` bookings are returned: the SQL
filter only excludes `status != 'cancelled'`. -/
theorem C5_completed_included_counterexample :
    findOverlappingBookings cdbCompleted 1 250 350 = [cbCompleted] ∧
      cbCompleted.status = "completed" := ⟨rfl, rfl⟩

/-- C5 amended: every booking returned by `FindOverlappingBookings` has
status different from `"cancelled"`; that is the only status filtering
performed, so `completed` (and any other non-cancelled string) bookings
are returned when their range matches. -/
theorem C5_only_cancelled_excluded (db : DB) (rid : Nat) (s e : Int)
    (b : Booking) (h : b ∈ findOverlappingBookings db rid s e) :
    b.status ≠ "cancelled" :=
  (mem_findOverlappingBookings.mp h).2.2.2.2

/-- C5 witness: the theorem applied to the concrete completed booking
returned by the overlap query. -/
theorem C5_only_cancelled_excluded_witness :
    cbCompleted.status ≠ "cancelled" :=
  C5_only_cancelled_excluded cdbCompleted 1 250 350 cbCompleted (by decide)

/-! ## Claim C6 -/

/-- C6 counterexample: with `now = 100`, the call
`CheckResourceAvailability(resource 1, [50, 60])` has `end > start` and a
past start, and returns `ErrInvalidTimeRange`, not `ErrPastDateBooking`
as the claim states: the service folds both violations into one check
returning `ErrInvalidTimeRange`. -/
theorem C6_past_start_counterexample :
    checkResourceAvailability cdbOpen 100 1 50 60 = .error .invalidTimeRange ∧
      Err.invalidTimeRange ≠ Err.pastDateBooking := ⟨rfl, by decide⟩

/-- C6 amended: for every store and range whose start is before `now`,
`CheckResourceAvailability` fails with `ErrInvalidTimeRange`;
`ErrPastDateBooking` is never produced by this method (only
`CreateBooking`/`UpdateBooking` raise it, through their own earlier
checks). -/
theorem C6_past_start_invalid_time_range (db : DB) (now : Int) (rid : Nat)
    (s e : Int) (h : s < now) :
    checkResourceAvailability db now rid s e = .error .invalidTimeRange := by
  unfold checkResourceAvailability
  rw [if_pos (Or.inr h)]

/-- C6 witness: the theorem at the concrete past-start input. -/
theorem C6_past_start_invalid_time_range_witness :
    checkResourceAvailability cdbOpen 100 1 50 60 = .error .invalidTimeRange :=
  C6_past_start_invalid_time_range cdbOpen 100 1 50 60 (by decide)

/-! ## Claim C4 -/

/-- C4 counterexample: the stored booking has status `"cancelled"`; a
status-only patch to `"confirmed"` — an illegal transition out of a
terminal state per the claim — SUCCEEDS and the stored booking is
changed, refuting the claim that it is rejected with
`ErrInvalidBookingStatus`: `isValidStatus` only checks membership in the
list of the four status strings, never the transition. -/
theorem C4_cancelled_to_confirmed_counterexample :
    updateBooking cdbCancelled 100 5
      (fun b => .ok { b with status := "confirmed" }) = .ok cdbRevived := rfl

/-- C4 amended: for a status-only patch (time range unchanged, range
still valid), `UpdateBooking` succeeds and persists the patched booking
whenever the new status is any of the four strings `pending`,
`confirmed`, `cancelled`, `completed` — regardless of the old status —
and fails with `ErrInvalidBookingStatus` exactly when the new status is
outside that list.  No state-machine transition is enforced. -/
theorem C4_status_membership_only (db : DB) (now : Int) (id : Nat)
    (updateFn : Booking → Except Err Booking) (b nb : Booking)
    (hget : getBookingByID db id = some b)
    (hfn : updateFn b = .ok nb)
    (hs : nb.startTime = b.startTime)
    (he : nb.endTime = b.endTime)
    (hv : ¬ nb.endTime < nb.startTime) :
    updateBooking db now id updateFn =
      if isValidStatus nb.status = true then .ok (saveBooking db nb)
      else .error .invalidBookingStatus := by
  simp only [updateBooking, hget, hfn]
  rw [if_neg hv]
  by_cases hval : isValidStatus nb.status = true
  · rw [if_neg (by simp [hval]), if_pos hval,
      if_neg (not_or.mpr ⟨by simp [hs], by simp [he]⟩)]
  · have hf : isValidStatus nb.status = false := by
      revert hval; cases isValidStatus nb.status <;> simp
    rw [if_pos hf, if_neg hval]

/-- C4 witness: the theorem at the concrete pending booking patched to
`"completed"`. -/
theorem C4_status_membership_only_witness :
    updateBooking cdbPending 100 9
      (fun b => .ok { b with status := "completed" }) =
      if isValidStatus cbPendingDone.status = true
      then .ok (saveBooking cdbPending cbPendingDone)
      else .error .invalidBookingStatus :=
  C4_status_membership_only cdbPending 100 9
    (fun b => .ok { b with status := "completed" }) cbPending cbPendingDone
    rfl rfl rfl rfl (by decide)

/-! ## Claim C7 -/

/-- C7 counterexample: the zero-length request `[200, 200]` (with
`end = start`) on a covered resource is NOT rejected with
`ErrInvalidTimeRange`; it is admitted and inserted, because the
validation only tests `end.Before(start)`, which is strict. -/
theorem C7_zero_length_counterexample :
    createBooking cdbOpen 100 cbZeroLen = .ok cdbAfterZeroLen := rfl

/-- C7 amended: `CreateBooking` fails with `ErrInvalidTimeRange` exactly
when `end < start` (strict); a zero-length request with `end = start`
passes the time-range validation and can be admitted and inserted. -/
theorem C7_invalid_time_range_iff (db : DB) (now : Int) (b : Booking) :
    createBooking db now b = .error .invalidTimeRange ↔
      b.endTime < b.startTime := by
  constructor
  · intro h
    by_contra hlt
    unfold createBooking at h
    rw [if_neg hlt] at h
    by_cases hp : b.startTime < now
    · rw [if_pos hp] at h
      exact Err.noConfusion (Except.error.inj h)
    · rw [if_neg hp] at h
      cases hc : checkResourceAvailability db now b.resourceID b.startTime
          b.endTime with
      | error e =>
        rw [hc] at h
        have he : e = Err.invalidTimeRange := Except.error.inj h
        exact checkResourceAvailability_ne_invalid hlt hp (he ▸ hc)
      | ok av =>
        rw [hc] at h
        cases av
        · exact Err.noConfusion (Except.error.inj h)
        · exact Except.noConfusion h
  · intro h
    unfold createBooking
    rw [if_pos h]

/-! ## Claim C8 -/

/-- C8 confirmed: every `CreateBooking` request with `end ≥ start` and a
start before `now` is rejected with `ErrPastDateBooking`, for EVERY store
(so regardless of coverage or overlapping bookings — the check happens
before any availability query), and the `Except` error result carries no
new store, so nothing is inserted. -/
theorem C8_past_date_rejected (db : DB) (now : Int) (b : Booking)
    (h1 : ¬ b.endTime < b.startTime) (h2 : b.startTime < now) :
    createBooking db now b = .error .pastDateBooking := by
  unfold createBooking
  rw [if_neg h1, if_pos h2]

/-- C8 witness: the theorem at the concrete past-dated request. -/
theorem C8_past_date_rejected_witness :
    createBooking cdbOpen 100 cbPast = .error .pastDateBooking :=
  C8_past_date_rejected cdbOpen 100 cbPast (by decide) (by decide)

/-! ## Claim C9 -/

/-- After replacing the row found under `id` by a row `c` carrying the
same UUID, looking the id up again finds exactly `c`. -/
theorem find_after_save (id : Nat) (c : Booking) :
    ∀ (l : List Booking) (b : Booking),
      l.find? (fun x => x.uuid == id) = some b → c.uuid = b.uuid →
      (l.map (fun x => if x.uuid == c.uuid then c else x)).find?
        (fun x => x.uuid == id) = some c := by
  intro l
  induction l with
  | nil => intro b h hc; simp at h
  | cons a t ih =>
    intro b hfind hc
    have hb : b.uuid = id := by simpa using List.find?_some hfind
    by_cases ha : (a.uuid == id) = true
    · have heq : List.find? (fun x => x.uuid == id) (a :: t) = some a :=
        List.find?_cons_of_pos t ha
      rw [heq] at hfind
      have hba : a = b := Option.some.inj hfind
      have hac : (a.uuid == c.uuid) = true := by
        rw [hc, ← hba]; simp
      have hcid : ((fun x => x.uuid == id) c) = true := by
        show (c.uuid == id) = true
        rw [hc, hb]; simp
      rw [List.map_cons, if_pos hac]
      exact List.find?_cons_of_pos _ hcid
    · have haf : ¬ ((fun x => x.uuid == id) a) = true := ha
      have heq : List.find? (fun x => x.uuid == id) (a :: t) =
          List.find? (fun x => x.uuid == id) t :=
        List.find?_cons_of_neg t haf
      rw [heq] at hfind
      have hxc : ¬ ((a.uuid == c.uuid) = true) := by
        rw [hc, hb]
        exact ha
      rw [List.map_cons, if_neg hxc]
      have heq2 : List.find? (fun x => x.uuid == id)
          (a :: (t.map (fun x => if x.uuid == c.uuid then c else x))) =
          List.find? (fun x => x.uuid == id)
            (t.map (fun x => if x.uuid == c.uuid then c else x)) :=
        List.find?_cons_of_neg _ haf
      rw [heq2]
      exact ih b hfind hc

/-- Replacing by the same row twice is the same as replacing once. -/
theorem save_row_idem (c : Booking) (l : List Booking) :
    (l.map (fun x => if x.uuid == c.uuid then c else x)).map
      (fun x => if x.uuid == c.uuid then c else x) =
    l.map (fun x => if x.uuid == c.uuid then c else x) := by
  induction l with
  | nil => rfl
  | cons a t ih =>
    rw [List.map_cons, List.map_cons, ih]
    by_cases h : (a.uuid == c.uuid) = true
    · simp [h]
    · simp [h]

/-- C9 confirmed: `CancelBooking` is idempotent — if cancelling a booking
yields the store `db1`, cancelling the same id again succeeds and leaves
`db1` exactly unchanged: the second call loads the already-cancelled row,
overwrites `status` with the value it already has, and the `Save`
replacement is a fixed point. -/
theorem C9_cancel_idempotent (db db1 : DB) (id : Nat)
    (h : cancelBooking db id = .ok db1) :
    cancelBooking db1 id = .ok db1 := by
  cases hf : getBookingByID db id with
  | none =>
    unfold cancelBooking at h
    rw [hf] at h
    exact Except.noConfusion h
  | some b =>
    unfold cancelBooking at h
    rw [hf] at h
    have h2 : Except.ok (ε := Err)
        (saveBooking db { b with status := "cancelled" }) = Except.ok db1 := h
    have hdb : saveBooking db { b with status := "cancelled" } = db1 :=
      Except.ok.inj h2
    subst hdb
    have hfb : db.bookings.find? (fun x => x.uuid == id) = some b := hf
    have hfind2 : getBookingByID
        (saveBooking db { b with status := "cancelled" }) id =
        some { b with status := "cancelled" } :=
      find_after_save id { b with status := "cancelled" } db.bookings b hfb rfl
    unfold cancelBooking
    rw [hfind2]
    show Except.ok (saveBooking (saveBooking db { b with status := "cancelled" })
        { { b with status := "cancelled" } with status := "cancelled" }) =
      Except.ok (saveBooking db { b with status := "cancelled" })
    have hbc : ({ { b with status := "cancelled" } with
        status := "cancelled" } : Booking) = { b with status := "cancelled" } := rfl
    rw [hbc]
    unfold saveBooking
    rw [save_row_idem]

/-- C9 witness: the theorem applied to the concrete confirmed booking,
showing the second cancellation returns the once-cancelled store. -/
theorem C9_cancel_idempotent_witness :
    cancelBooking cdbCancelledOnce 5 = .ok cdbCancelledOnce :=
  C9_cancel_idempotent cdbForCancel cdbCancelledOnce 5 rfl

/-! ## Claim C10 -/

/-- C10 confirmed: `CreateAvailability` rejects with
`ErrInvalidTimeRange` every availability window whose start is before
`now`, for every store and resource, even when `end > start`: windows can
only be created for future time ranges. -/
theorem C10_availability_past_start_rejected (db : DB) (now : Int)
    (rid : Nat) (a : Availability) (h : a.startTime < now) :
    createAvailability db now rid a = .error .invalidTimeRange := by
  unfold createAvailability
  rw [if_pos (Or.inr h)]

/-- C10 witness: the theorem at a concrete window with `end > start` and
a past start. -/
theorem C10_availability_past_start_rejected_witness :
    createAvailability cdbOpen 100 1 cavPast = .error .invalidTimeRange :=
  C10_availability_past_start_rejected cdbOpen 100 1 cavPast (by decide)

end VibeBooking
